import Mathlib

/-!
Shallow embedding of the core of a minimal in-memory key-value server
(request decoder, command dispatcher, expiring cache) found in
`src/main.rs`.

Modelling conventions:
* The cache `HashMap<String, (String, Option<u128>)>` is modelled
  extensionally as a function `String → Option (String × Option Nat)`;
  `insert` and `remove` are pointwise updates.
* Wall-clock time (`SystemTime::now` in milliseconds since the epoch) is
  passed explicitly as a `Nat` parameter `currTime` to every operation
  that reads the clock.
* `u128`/`usize` parsing (`str::parse`) is modelled by `parseUInt`:
  an optional leading plus sign, then one or more ASCII digits, value
  below the type bound; anything else fails.  The absolute expiry
  `curr_time + expiry` is modelled by `Nat` addition (the `u128` sum
  cannot overflow for any input reachable in the claims below).
* Rust byte slicing `first_elem[1..]` is modelled at character level as
  `strDrop _ 1`, and `str::to_uppercase` as the ASCII `strUpper`; the
  two agree on all ASCII tokens.  Charwise (structurally recursive)
  string helpers stand in for the core library ones so every definition
  reduces inside the kernel.
* Handlers return the response string paired with the cache after the
  call, instead of writing to a TCP stream.
* `format!` with the `\x7b:?\x7d` (Debug) formatter on a `Vec<&str>` is
  modelled by `debugFmtList`; escapes beyond quote, backslash, CR, LF
  and TAB are kept verbatim (no claim inspects those characters).
-/

namespace Redis

/-- The RESP_DELIMITER constant of the server: CR LF. -/
def RESP_DELIMITER : String := "\r\n"

/-- Charwise drop of the first `n` characters of a string. -/
def strDrop (s : String) (n : Nat) : String := ⟨s.data.drop n⟩

/-- ASCII uppercasing of one character. -/
def charUpper (c : Char) : Char :=
  if 'a' ≤ c ∧ c ≤ 'z' then Char.ofNat (c.toNat - 32) else c

/-- ASCII uppercasing of a string (str::to_uppercase; the tokens the
server compares are ASCII). -/
def strUpper (s : String) : String := ⟨s.data.map charUpper⟩

/-- Concatenation of a list of strings with a separator between
consecutive elements. -/
def joinSep (sep : String) : List String → String
  | [] => ""
  | [x] => x
  | x :: y :: xs => x ++ sep ++ joinSep sep (y :: xs)

/-- The cache mapping: key to (value, optional absolute expiry in ms). -/
abbrev Cache := String → Option (String × Option Nat)

/-- HashMap.insert: pointwise update of the mapping. -/
def insertKey (c : Cache) (k : String) (e : String × Option Nat) : Cache :=
  fun q => if q = k then some e else c q

/-- HashMap.remove: pointwise deletion from the mapping. -/
def removeKey (c : Cache) (k : String) : Cache :=
  fun q => if q = k then none else c q

/-- Rust unsigned-integer `str::parse` with exclusive upper bound:
optional leading plus sign, then one or more ASCII digits whose value is
below the bound. -/
def parseUInt (bound : Nat) (s : String) : Option Nat :=
  let ds : List Char :=
    match s.data with
    | '+' :: rest => rest
    | l => l
  if ds ≠ [] ∧ ds.all Char.isDigit then
    let v := ds.foldl (fun a c => a * 10 + (c.toNat - 48)) 0
    if v < bound then some v else none
  else none

/-- str::parse::<u128>() used for the PX millisecond token. -/
def parseU128 (s : String) : Option Nat := parseUInt (2 ^ 128) s

/-- str::parse::<usize>() used for the declared element count. -/
def parseUsize (s : String) : Option Nat := parseUInt (2 ^ 64) s

/-- Debug (\x7b:?\x7d) rendering of one character of a &str. -/
def rustDebugChar (c : Char) : String :=
  if c = '"' then "\\\""
  else if c = '\\' then "\\\\"
  else if c = '\r' then "\\r"
  else if c = '\n' then "\\n"
  else if c = '\t' then "\\t"
  else ⟨[c]⟩

/-- Debug (\x7b:?\x7d) rendering of a &str: the escaped text in quotes. -/
def rustDebugStr (s : String) : String :=
  "\"" ++ joinSep "" (s.data.map rustDebugChar) ++ "\""

/-- Debug (\x7b:?\x7d) rendering of a Vec<&str>. -/
def debugFmtList (l : List String) : String :=
  "[" ++ joinSep ", " (l.map rustDebugStr) ++ "]"

/-- The closed Command variant of the server. -/
inductive Command
  | ping
  | echo
  | get
  | set
deriving DecidableEq

/-- strum EnumString with shouty_snake_case: Command::from_str, as an
Option (from_str().unwrap() panics on none, i.e. decode failure). -/
def commandFromStr (s : String) : Option Command :=
  if s = "PING" then some Command.ping
  else if s = "ECHO" then some Command.echo
  else if s = "GET" then some Command.get
  else if s = "SET" then some Command.set
  else none

/-- decode_request on the token list obtained by splitting the request
on RESP_DELIMITER (split_terminator). Every `expect`/`unwrap` panic in
the source (no first token, element count not parsing, no token at
index 2, unknown command name) is a decode failure, modelled as
`none`. -/
def decodeRequest (respArray : List String) : Option Command :=
  match respArray[0]? with
  | none => none
  | some firstElem =>
    match parseUsize (strDrop firstElem 1) with
    | none => none
    | some _ =>
      match respArray[2]? with
      | none => none
      | some cmd => commandFromStr (strUpper cmd)

/-- handle_ping_cmd: the fixed PONG simple string. -/
def handlePingCmd : String := "+PONG" ++ RESP_DELIMITER

/-- The ECHO arity-mismatch error simple string. -/
def echoArityErr (echoData : List String) : String :=
  "+Wrong number of args for ECHO command: " ++ debugFmtList echoData
    ++ "!" ++ RESP_DELIMITER

/-- handle_echo_cmd: requires exactly two tokens (length prefix and
argument); responds with the argument wrapped in a simple string. -/
def handleEchoCmd (echoData : List String) : String :=
  if echoData.length ≠ 2 then
    echoArityErr echoData
  else
    match echoData[1]? with
    | some echoArg => "+" ++ echoArg ++ RESP_DELIMITER
    | none => "+Couldn\x27t find arg in ECHO request!" ++ RESP_DELIMITER

/-- get_key: look up the key; an entry past its expiry instant is
removed (lazy delete) and reported absent; the comparison is strict
(`curr_time > expiry`). Returns the optional value and the cache after
the call. -/
def getKey (cache : Cache) (key : String) (currTime : Nat) :
    Option String × Cache :=
  match cache key with
  | some (val, expiryTs) =>
    match expiryTs with
    | some expiry =>
      if currTime > expiry then (none, removeKey cache key)
      else (some val, cache)
    | none => (some val, cache)
  | none => (none, cache)

/-- The GET arity-mismatch error simple string. -/
def getArityErr (getData : List String) : String :=
  "+Wrong number of args for GET command: " ++ debugFmtList getData
    ++ "!" ++ RESP_DELIMITER

/-- The missing-key error simple string (also reused verbatim by the
SET handler in the source). -/
def keyMissingErr : String :=
  "+Couldn\x27t find key in GET request!" ++ RESP_DELIMITER

/-- handle_get_cmd: arity check (`len < 2`), key at token index 1,
lookup through get_key, `+value` on hit and the `$-1` null bulk string
on miss. -/
def handleGetCmd (getData : List String) (cache : Cache) (currTime : Nat) :
    String × Cache :=
  if getData.length < 2 then
    (getArityErr getData, cache)
  else
    match getData[1]? with
    | none => (keyMissingErr, cache)
    | some key =>
      let r := getKey cache key currTime
      match r.1 with
      | some v => ("+" ++ v ++ RESP_DELIMITER, r.2)
      | none => ("$-1" ++ RESP_DELIMITER, r.2)

/-- add_key: store (value, Some(current time + relative expiry)) when a
relative expiry is given, (value, None) otherwise, unconditionally
overwriting any prior entry. -/
def addKey (cache : Cache) (key val : String) (expiryMs : Option Nat)
    (currTime : Nat) : Cache :=
  match expiryMs with
  | some expiry => insertKey cache key (val, some (currTime + expiry))
  | none => insertKey cache key (val, none)

/-- The SET arity-mismatch error simple string. -/
def setArityErr (setData : List String) : String :=
  "+Wrong number of args for SET command: " ++ debugFmtList setData
    ++ "!" ++ RESP_DELIMITER

/-- The missing-value error simple string of the SET handler. -/
def valMissingErr : String :=
  "+Couldn\x27t find val in SET request!" ++ RESP_DELIMITER

/-- The missing-PX-value error simple string of the SET handler. -/
def pxMissingErr : String :=
  "+Couldn\x27t find PX value in SET request!" ++ RESP_DELIMITER

/-- The unsupported-option error simple string of the SET handler; the
source interpolates the already-uppercased option token. -/
def unsupportedOptionErr (opt : String) : String :=
  "+Unsupported option: " ++ (opt ++ (" for SET request!" ++ RESP_DELIMITER))

/-- The fixed OK simple string. -/
def okResp : String := "+OK" ++ RESP_DELIMITER

/-- handle_set_cmd: arity check (`len < 4`), key at token index 1,
value at token index 3, optional option token at index 5 (uppercased
and matched against PX) with its millisecond token at index 7. A
present but unparsable millisecond token becomes `none` through
`.parse::<u128>().ok()` and the entry is still stored. On success the
entry is stored through add_key and OK is returned. -/
def handleSetCmd (setData : List String) (cache : Cache) (currTime : Nat) :
    String × Cache :=
  if setData.length < 4 then
    (setArityErr setData, cache)
  else
    match setData[1]? with
    | none => (keyMissingErr, cache)
    | some key =>
      match setData[3]? with
      | none => (valMissingErr, cache)
      | some val =>
        match setData[5]? with
        | some optionArg =>
          if strUpper optionArg = "PX" then
            match setData[7]? with
            | some expiryTime =>
              (okResp, addKey cache key val (parseU128 expiryTime) currTime)
            | none => (pxMissingErr, cache)
          else
            (unsupportedOptionErr (strUpper optionArg), cache)
        | none => (okResp, addKey cache key val none currTime)

/-- handle_cmd: route the decoded command to its handler, passing the
token slice `resp_array[3..]` to the argument-taking handlers. Returns
the response and the cache after the dispatch. -/
def handleCmd (cmd : Command) (respArray : List String) (cache : Cache)
    (currTime : Nat) : String × Cache :=
  match cmd with
  | Command.ping => (handlePingCmd, cache)
  | Command.echo => (handleEchoCmd (respArray.drop 3), cache)
  | Command.get => handleGetCmd (respArray.drop 3) cache currTime
  | Command.set => handleSetCmd (respArray.drop 3) cache currTime

/-- The empty cache of a freshly started server. -/
def emptyCache : Cache := fun _ => none

/-- A concrete cache holding one entry whose expiry instant is 0. -/
def cacheExpired : Cache :=
  fun q => if q = "key" then some (("v", some 0) : String × Option Nat) else none

end Redis

namespace Redis

/-- Helper: strings of different lengths are different. -/
theorem ne_of_length_lt (a b : String) (h : a.length < b.length) : a ≠ b := by
  intro he
  rw [he] at h
  omega

/-- Helper: the OK response differs from the SET arity error. -/
theorem okResp_ne_setArityErr (d : List String) : okResp ≠ setArityErr d := by
  apply ne_of_length_lt
  have h1 : "+OK".length + RESP_DELIMITER.length = 5 := by decide
  have h2 : 5 < ("+Wrong number of args for SET command: " : String).length := by
    decide
  simp only [okResp, setArityErr, String.length_append]
  omega

/-- Helper: the OK response differs from the unsupported-option error. -/
theorem okResp_ne_unsupportedOptionErr (o : String) :
    okResp ≠ unsupportedOptionErr o := by
  apply ne_of_length_lt
  have h1 : "+OK".length + RESP_DELIMITER.length = 5 := by decide
  have h2 : 5 < ("+Unsupported option: " : String).length := by decide
  simp only [okResp, unsupportedOptionErr, String.length_append]
  omega

/-- Helper: the null bulk string differs from the GET arity error. -/
theorem nullBulk_ne_getArityErr (d : List String) :
    ("$-1" ++ RESP_DELIMITER) ≠ getArityErr d := by
  apply ne_of_length_lt
  have h1 : "$-1".length + RESP_DELIMITER.length = 5 := by decide
  have h2 : 5 < ("+Wrong number of args for GET command: " : String).length := by
    decide
  simp only [getArityErr, String.length_append]
  omega

/-- Helper: every run of handle_get_cmd either leaves the cache mapping
unchanged or answers with the null bulk string (the lazy-delete branch). -/
theorem handleGetCmd_snd_cases (d : List String) (c : Cache) (t : Nat) :
    (handleGetCmd d c t).2 = c ∨
      (handleGetCmd d c t).1 = "$-1" ++ RESP_DELIMITER := by
  by_cases hl : d.length < 2
  · left
    simp [handleGetCmd, hl]
  · cases hd : d[1]? with
    | none =>
      left
      simp [handleGetCmd, hl, hd]
    | some key =>
      cases hck : c key with
      | none =>
        left
        simp [handleGetCmd, hl, hd, getKey, hck]
      | some ve =>
        obtain ⟨v', ets⟩ := ve
        cases ets with
        | none =>
          left
          simp [handleGetCmd, hl, hd, getKey, hck]
        | some E =>
          by_cases ht : E < t
          · right
            simp [handleGetCmd, hl, hd, getKey, hck, ht]
          · left
            simp [handleGetCmd, hl, hd, getKey, hck, ht]

/-- Helper: every run of handle_set_cmd either leaves the cache mapping
unchanged or answers OK (the only branch that calls add_key). -/
theorem handleSetCmd_snd_cases (d : List String) (c : Cache) (t : Nat) :
    (handleSetCmd d c t).2 = c ∨ (handleSetCmd d c t).1 = okResp := by
  by_cases hl : d.length < 4
  · left
    simp [handleSetCmd, hl]
  · cases h1 : d[1]? with
    | none =>
      left
      simp [handleSetCmd, hl, h1]
    | some key =>
      cases h3 : d[3]? with
      | none =>
        left
        simp [handleSetCmd, hl, h1, h3]
      | some val =>
        cases h5 : d[5]? with
        | none =>
          right
          simp [handleSetCmd, hl, h1, h3, h5]
        | some optionArg =>
          by_cases hpx : strUpper optionArg = "PX"
          · cases h7 : d[7]? with
            | none =>
              left
              simp [handleSetCmd, hl, h1, h3, h5, hpx, h7]
            | some expiryTime =>
              right
              simp [handleSetCmd, hl, h1, h3, h5, hpx, h7]
          · left
            simp [handleSetCmd, hl, h1, h3, h5, hpx]

/-- C2: for every cache state, key and current time, get_key returns
None when the key is absent; returns the stored value when the key has
no expiry instant; and when the key has expiry instant E it removes the
entry and returns None when the current time is strictly greater than
E, and returns the stored value otherwise (in particular at time E). -/
theorem getKey_spec (c : Cache) (k : String) (t : Nat) :
    (c k = none → getKey c k t = (none, c)) ∧
    (∀ v, c k = some (v, none) → getKey c k t = (some v, c)) ∧
    (∀ v E, c k = some (v, some E) →
      (E < t → getKey c k t = (none, removeKey c k)) ∧
      (t ≤ E → getKey c k t = (some v, c))) := by
  refine ⟨?_, ?_, ?_⟩
  · intro h
    simp [getKey, h]
  · intro v h
    simp [getKey, h]
  · intro v E h
    constructor
    · intro hlt
      simp [getKey, h, hlt]
    · intro hle
      simp [getKey, h, show ¬ E < t by omega]

/-- Witness for getKey_spec at a concrete cache: the stored entry with
expiry instant 0 is removed at time 1 and still returned at time 0. -/
theorem getKey_spec_witness :
    getKey cacheExpired "key" 1 = (none, removeKey cacheExpired "key") ∧
    getKey cacheExpired "key" 0 = (some "v", cacheExpired) :=
  ⟨((getKey_spec cacheExpired "key" 1).2.2 "v" 0 (by decide)).1 (by decide),
   ((getKey_spec cacheExpired "key" 0).2.2 "v" 0 (by decide)).2 (by decide)⟩

/-- C5: SET k v with no expiry option followed immediately by GET k,
from any cache state, answers OK and then the value wrapped in a simple
string. -/
theorem set_then_get (a b g k v : String) (c : Cache) (t1 t2 : Nat) :
    (handleSetCmd [a, k, b, v] c t1).1 = okResp ∧
    handleGetCmd [g, k] (handleSetCmd [a, k, b, v] c t1).2 t2 =
      ("+" ++ v ++ RESP_DELIMITER, (handleSetCmd [a, k, b, v] c t1).2) := by
  constructor
  · rfl
  · show handleGetCmd [g, k] (insertKey c k (v, none)) t2 = _
    simp [handleGetCmd, getKey, insertKey, handleSetCmd, addKey]

/-- C6: SET k v1 PX s (s parsing as the expiry duration e) then SET k
v2 with no expiry option then GET k answers the second value: the later
unconditional SET overwrites the entry and clears the expiry instant. -/
theorem set_overwrites_expiry (a b p q a2 b2 g k v1 v2 s : String) (e : Nat)
    (c : Cache) (t1 t2 t3 : Nat) (hs : parseU128 s = some e) :
    (handleGetCmd [g, k]
      (handleSetCmd [a2, k, b2, v2]
        (handleSetCmd [a, k, b, v1, p, "PX", q, s] c t1).2 t2).2 t3).1 =
      "+" ++ v2 ++ RESP_DELIMITER := by
  have h1 : (handleSetCmd [a, k, b, v1, p, "PX", q, s] c t1).2 =
      insertKey c k (v1, some (t1 + e)) := by
    simp [handleSetCmd, hs, addKey, show strUpper "PX" = "PX" from rfl]
  rw [h1]
  have h2 : (handleSetCmd [a2, k, b2, v2] (insertKey c k (v1, some (t1 + e))) t2).2 =
      insertKey (insertKey c k (v1, some (t1 + e))) k (v2, none) := by
    simp [handleSetCmd, addKey]
  rw [h2]
  simp [handleGetCmd, getKey, insertKey]

/-- Witness for set_overwrites_expiry at concrete tokens and times. -/
theorem set_overwrites_expiry_witness :
    (handleGetCmd ["$1", "k"]
      (handleSetCmd ["$1", "k", "$2", "v2"]
        (handleSetCmd ["$1", "k", "$2", "v1", "$2", "PX", "$6", "100000"]
          emptyCache 0).2 1).2 2).1 = "+" ++ "v2" ++ RESP_DELIMITER :=
  set_overwrites_expiry "$1" "$2" "$2" "$6" "$1" "$2" "$1" "k" "v1" "v2"
    "100000" 100000 emptyCache 0 1 2 (by decide)

/-- C10: add_key changes at most the mapping entry of its key, and
get_key changes at most the entry of its key (removing it only when it
is expired); every other key's entry is untouched. -/
theorem cache_ops_frame (c : Cache) (k v : String) (e : Option Nat) (t : Nat)
    (q : String) (hq : q ≠ k) :
    addKey c k v e t q = c q ∧ (getKey c k t).2 q = c q := by
  constructor
  · cases e <;> simp [addKey, insertKey, hq]
  · unfold getKey
    match hck : c k with
    | none => simp
    | some (v', none) => simp
    | some (v', some E) =>
      by_cases ht : t > E
      · simp [ht, removeKey, hq]
      · simp [ht]

/-- Witness for cache_ops_frame: operations on one key leave a distinct
concrete key untouched. -/
theorem cache_ops_frame_witness :
    addKey cacheExpired "key" "w" none 3 "other" = cacheExpired "other" ∧
    (getKey cacheExpired "key" 9).2 "other" = cacheExpired "other" :=
  cache_ops_frame cacheExpired "key" "w" none 3 "other" (by decide)

/-- C7: decoding a request frame fails exactly when the text of token 0
after its leading sigil character does not parse as a base-10 integer,
or there is no token at index 2, or the uppercased token at index 2 is
not a recognized command name; every other frame decodes to a
Command. -/
theorem decode_failure_iff (respArray : List String) :
    decodeRequest respArray = none ↔
      ((∃ t0, respArray[0]? = some t0 ∧ parseUsize (strDrop t0 1) = none) ∨
       respArray[2]? = none ∨
       (∃ cmd, respArray[2]? = some cmd ∧
         commandFromStr (strUpper cmd) = none)) := by
  match respArray with
  | [] =>
    simp [decodeRequest]
  | [t0] =>
    cases hp : parseUsize (strDrop t0 1) <;> simp [decodeRequest, hp]
  | [t0, t1] =>
    cases hp : parseUsize (strDrop t0 1) <;> simp [decodeRequest, hp]
  | t0 :: t1 :: c2 :: rest =>
    cases hp : parseUsize (strDrop t0 1) with
    | none =>
      simp [decodeRequest, hp]
    | some n =>
      cases hc : commandFromStr (strUpper c2) <;> simp [decodeRequest, hp, hc]

/-- C8: two frames identical except for the declared element count in
the header token decode to the same Command and dispatch to the same
response and cache, provided both counts parse. -/
theorem header_count_irrelevant (hd1 hd2 : String) (rest : List String)
    (c : Cache) (t : Nat)
    (p1 : (parseUsize (strDrop hd1 1)).isSome)
    (p2 : (parseUsize (strDrop hd2 1)).isSome) :
    decodeRequest (hd1 :: rest) = decodeRequest (hd2 :: rest) ∧
    ∀ cmd, handleCmd cmd (hd1 :: rest) c t = handleCmd cmd (hd2 :: rest) c t := by
  constructor
  · obtain ⟨n1, e1⟩ := Option.isSome_iff_exists.mp p1
    obtain ⟨n2, e2⟩ := Option.isSome_iff_exists.mp p2
    simp [decodeRequest, e1, e2]
  · intro cmd
    cases cmd <;> rfl

/-- Witness for header_count_irrelevant: the headers *2 and *9 in front
of a PING body give the same decode and dispatch results. -/
theorem header_count_irrelevant_witness :
    decodeRequest ["*2", "$4", "PING"] = decodeRequest ["*9", "$4", "PING"] ∧
    ∀ cmd, handleCmd cmd ["*2", "$4", "PING"] emptyCache 0 =
      handleCmd cmd ["*9", "$4", "PING"] emptyCache 0 :=
  header_count_irrelevant "*2" "*9" ["$4", "PING"] emptyCache 0
    (by decide) (by decide)

/-- C9: whenever the Echo, Get or Set handler answers with an
arity-mismatch, missing-token or unsupported-option error simple
string, the cache mapping after the dispatch equals the mapping before
it (the Echo handler never touches the cache at all). -/
theorem validation_errors_preserve_cache :
    (∀ (respArray : List String) (c : Cache) (t : Nat),
      (handleCmd Command.echo respArray c t).2 = c) ∧
    (∀ (d : List String) (c : Cache) (t : Nat),
      (handleGetCmd d c t).1 = getArityErr d ∨
        (handleGetCmd d c t).1 = keyMissingErr →
      (handleGetCmd d c t).2 = c) ∧
    (∀ (d : List String) (c : Cache) (t : Nat),
      (handleSetCmd d c t).1 = setArityErr d ∨
        (handleSetCmd d c t).1 = keyMissingErr ∨
        (handleSetCmd d c t).1 = valMissingErr ∨
        (handleSetCmd d c t).1 = pxMissingErr ∨
        (∃ o, (handleSetCmd d c t).1 = unsupportedOptionErr o) →
      (handleSetCmd d c t).2 = c) := by
  refine ⟨fun _ _ _ => rfl, ?_, ?_⟩
  · intro d c t herr
    rcases handleGetCmd_snd_cases d c t with h | h
    · exact h
    · exfalso
      rcases herr with he | he
      · rw [h] at he
        exact nullBulk_ne_getArityErr d he
      · rw [h] at he
        exact absurd he (by decide)
  · intro d c t herr
    rcases handleSetCmd_snd_cases d c t with h | h
    · exact h
    · exfalso
      rcases herr with he | he | he | he | ⟨o, he⟩
      · rw [h] at he
        exact okResp_ne_setArityErr d he
      · rw [h] at he
        exact absurd he (by decide)
      · rw [h] at he
        exact absurd he (by decide)
      · rw [h] at he
        exact absurd he (by decide)
      · rw [h] at he
        exact okResp_ne_unsupportedOptionErr o he

/-- Witness for validation_errors_preserve_cache: empty argument slices
take the arity-error paths of all three handlers and leave the empty
cache intact. -/
theorem validation_errors_preserve_cache_witness :
    (handleCmd Command.echo [] emptyCache 0).2 = emptyCache ∧
    (handleGetCmd [] emptyCache 0).2 = emptyCache ∧
    (handleSetCmd [] emptyCache 0).2 = emptyCache :=
  ⟨validation_errors_preserve_cache.1 [] emptyCache 0,
   validation_errors_preserve_cache.2.1 [] emptyCache 0 (Or.inl rfl),
   validation_errors_preserve_cache.2.2 [] emptyCache 0 (Or.inl rfl)⟩

/-- C1 (amended): for a SET request whose option token at index 5
uppercases to PX, a missing millisecond token at index 7 is answered
with the missing-PX-value error and the cache is unchanged; a present
millisecond token that does not parse as a non-negative integer is
silently treated as no expiry: the entry is stored with no expiry
instant and OK is answered. -/
theorem px_token_behavior (setData : List String) (k v opt : String)
    (c : Cache) (t : Nat)
    (h1 : setData[1]? = some k) (h3 : setData[3]? = some v)
    (h5 : setData[5]? = some opt) (hpx : strUpper opt = "PX") :
    (setData[7]? = none → handleSetCmd setData c t = (pxMissingErr, c)) ∧
    (∀ e, setData[7]? = some e → parseU128 e = none →
      handleSetCmd setData c t = (okResp, addKey c k v none t)) := by
  have hlen : ¬ setData.length < 4 := by
    have := (List.getElem?_eq_some.mp h5).1
    omega
  constructor
  · intro h7
    simp [handleSetCmd, hlen, h1, h3, h5, hpx, h7]
  · intro e h7 hpe
    simp [handleSetCmd, hlen, h1, h3, h5, hpx, h7, hpe]

/-- Counterexample to C1 as stated: SET with PX and the unparsable
millisecond token abc answers OK and stores the entry (the mapping is
changed), instead of answering an error without storing. -/
theorem px_unparsable_counterexample :
    (handleSetCmd ["$3", "key", "$3", "val", "$2", "PX", "$3", "abc"]
      emptyCache 0).1 = okResp ∧
    (handleSetCmd ["$3", "key", "$3", "val", "$2", "PX", "$3", "abc"]
      emptyCache 0).2 "key" = some ("val", none) ∧
    emptyCache "key" = none := by
  decide

/-- Witness for px_token_behavior: both the missing-token branch and
the unparsable-token branch at concrete inputs. -/
theorem px_token_behavior_witness :
    handleSetCmd ["$3", "key", "$3", "val", "$2", "px"] emptyCache 0 =
      (pxMissingErr, emptyCache) ∧
    handleSetCmd ["$3", "key2", "$3", "val", "$2", "PX", "$3", "abc"]
      emptyCache 0 =
      (okResp, addKey emptyCache "key2" "val" none 0) :=
  ⟨(px_token_behavior ["$3", "key", "$3", "val", "$2", "px"] "key" "val" "px"
      emptyCache 0 (by decide) (by decide) (by decide) (by decide)).1
      (by decide),
   (px_token_behavior ["$3", "key2", "$3", "val", "$2", "PX", "$3", "abc"]
      "key2" "val" "PX" emptyCache 0 (by decide) (by decide) (by decide)
      (by decide)).2 "abc" (by decide) (by decide)⟩

/-- C3 (amended): after SET k v PX 0 at time t0, a GET k at any time
strictly greater than t0 answers the null bulk string, while a GET k
within the same millisecond t0 still answers the value. -/
theorem set_px_zero_expiry (a b p q g k v : String) (c : Cache) (t0 t : Nat) :
    (t0 < t →
      (handleGetCmd [g, k]
        (handleSetCmd [a, k, b, v, p, "PX", q, "0"] c t0).2 t).1 =
        "$-1" ++ RESP_DELIMITER) ∧
    (handleGetCmd [g, k]
        (handleSetCmd [a, k, b, v, p, "PX", q, "0"] c t0).2 t0).1 =
        "+" ++ v ++ RESP_DELIMITER := by
  have hset : (handleSetCmd [a, k, b, v, p, "PX", q, "0"] c t0).2 =
      insertKey c k (v, some t0) := by
    simp [handleSetCmd, show strUpper "PX" = "PX" from rfl,
      show parseU128 "0" = some 0 from rfl, addKey]
  constructor
  · intro ht
    rw [hset]
    simp [handleGetCmd, getKey, insertKey, ht]
  · rw [hset]
    simp [handleGetCmd, getKey, insertKey]

/-- Counterexample to C3 as stated: after SET key val PX 0 at
millisecond 5, a GET within the same millisecond 5 answers the value,
not the null bulk string. -/
theorem px_zero_same_millis_counterexample :
    (handleGetCmd ["$3", "key"]
      (handleSetCmd ["$3", "key", "$3", "val", "$2", "PX", "$1", "0"]
        emptyCache 5).2 5).1 = "+val" ++ RESP_DELIMITER ∧
    "+val" ++ RESP_DELIMITER ≠ "$-1" ++ RESP_DELIMITER := by
  decide

/-- Witness for set_px_zero_expiry at concrete tokens and times 5, 6. -/
theorem set_px_zero_expiry_witness :
    (handleGetCmd ["$3", "key"]
      (handleSetCmd ["$3", "key", "$3", "val", "$2", "PX", "$1", "0"]
        emptyCache 5).2 6).1 = "$-1" ++ RESP_DELIMITER ∧
    (handleGetCmd ["$3", "key"]
      (handleSetCmd ["$3", "key", "$3", "val", "$2", "PX", "$1", "0"]
        emptyCache 5).2 5).1 = "+" ++ "val" ++ RESP_DELIMITER :=
  ⟨(set_px_zero_expiry "$3" "$3" "$2" "$1" "$3" "key" "val" emptyCache 5 6).1
      (by decide),
   (set_px_zero_expiry "$3" "$3" "$2" "$1" "$3" "key" "val" emptyCache 5 5).2⟩

/-- C4 (amended): the GET handler answers the arity-mismatch error
only when fewer than two argument tokens are present; whenever a token
exists at index 1 — in particular when extra argument tokens follow the
key — the lookup is performed on that token and the extras are
ignored. -/
theorem get_extra_args (getData : List String) (c : Cache) (t : Nat) :
    (getData.length < 2 → handleGetCmd getData c t = (getArityErr getData, c)) ∧
    (∀ k, getData[1]? = some k →
      handleGetCmd getData c t =
        ((match (getKey c k t).1 with
          | some v => "+" ++ v ++ RESP_DELIMITER
          | none => "$-1" ++ RESP_DELIMITER),
         (getKey c k t).2)) := by
  constructor
  · intro h
    simp [handleGetCmd, h]
  · intro k hk
    have hlen : ¬ getData.length < 2 := by
      have := (List.getElem?_eq_some.mp hk).1
      omega
    cases hg : (getKey c k t).1 <;> simp [handleGetCmd, hlen, hk, hg]

/-- Counterexample to C4 as stated: a GET request with an extra
argument token beyond the key is not answered with the arity-mismatch
error; the lookup runs and even lazily deletes the expired entry. -/
theorem get_extra_args_counterexample :
    (handleGetCmd ["$3", "key", "$1", "x"] cacheExpired 1).1 =
      "$-1" ++ RESP_DELIMITER ∧
    (handleGetCmd ["$3", "key", "$1", "x"] cacheExpired 1).1 ≠
      getArityErr ["$3", "key", "$1", "x"] ∧
    (handleGetCmd ["$3", "key", "$1", "x"] cacheExpired 1).2 "key" = none ∧
    cacheExpired "key" = some ("v", some 0) := by
  decide

/-- Witness for get_extra_args: the no-argument arity error and a
lookup that proceeds despite an extra argument token. -/
theorem get_extra_args_witness :
    handleGetCmd ["$3"] emptyCache 0 = (getArityErr ["$3"], emptyCache) ∧
    handleGetCmd ["$3", "key", "$1", "x"] emptyCache 7 =
      ("$-1" ++ RESP_DELIMITER, emptyCache) :=
  ⟨(get_extra_args ["$3"] emptyCache 0).1 (by decide),
   (get_extra_args ["$3", "key", "$1", "x"] emptyCache 7).2 "key" (by decide)⟩

end Redis
